import Mathlib

/-!
Shallow embedding of the Lumino contracts-client node agent
(`src/node_client.py`, class `LuminoNode`) and proofs about its behaviour.

Conventions of the embedding:
* Ledger-facade mutations (`self.sdk.*`) are recorded as elements of the
  inductive type `Call`; a run of a method yields the list of calls it
  attempted, in order.
* 32-byte secrets are modelled as `Nat`; the external keccak hash
  (`Web3.solidity_keccak`) is modelled by the opaque-constructor wrapper
  `Hash32.keccak` (no hash properties are claimed or used).
* A facade call that raises `ContractError` is modelled by an environment
  flag/function saying which calls raise; Python exception propagation is
  made explicit in the return values.
* File-system and subprocess behaviour around `_execute_job` is modelled
  by an explicit observation trace (`Obs`) of what the poll loop sees.
-/

namespace NodeClient

/-- Hash of a 32-byte value, as produced by the external keccak call.
Modelled as a free constructor: the embedding claims nothing about the
hash function itself. -/
inductive Hash32 where
  | keccak (s : Nat) : Hash32
deriving DecidableEq, Repr

/-- A mutating ledger-facade call attempted by the node
(`self.sdk.<method>(...)` in `node_client.py`). -/
inductive Call where
  | approveTokenSpending (spender : String) (amount : Nat)
  | depositStake (amount : Nat)
  | registerNode (computeRating : Nat)
  | submitCommitment (nodeId : Nat) (c : Hash32)
  | revealSecret (nodeId : Nat) (s : Nat)
  | electLeader
  | startAssignmentRound
  | confirmJob (jobId : Nat)
  | setTokenCount (jobId : Nat) (n : Nat)
  | completeJob (jobId : Nat)
  | processJobPayment (jobId : Nat)
  | failJob (jobId : Nat) (reason : String)
  | processIncentives
deriving DecidableEq, Repr

/-- The commit-reveal state owned by the node:
`self.current_secret` and `self.current_commitment`. -/
structure SecretSt where
  current_secret : Option Nat
  current_commitment : Option Hash32
deriving DecidableEq, Repr

/-- Embedding of `LuminoNode.submit_commitment` (node_client.py:147-159).
`fresh` is the value drawn by `random.randbytes(32)`; the method stores the
fresh secret and its keccak commitment in `self` BEFORE issuing the RPC.
`raising` says whether `self.sdk.submit_commitment` raises `ContractError`;
the except-branch logs and re-raises, so the returned Bool is the
raised-exception flag and the state update is kept either way. -/
def submitCommitment (raising : Bool) (fresh : Nat) (nodeId : Nat)
    (st : SecretSt) : SecretSt × List Call × Bool :=
  let st' : SecretSt :=
    { current_secret := some fresh
      current_commitment := some (Hash32.keccak fresh) }
  (st', ([Call.submitCommitment nodeId (Hash32.keccak fresh)], raising))

/-- Embedding of `LuminoNode.reveal_secret` (node_client.py:161-172).
If `self.current_secret` is absent the method only logs and returns with no
RPC. Otherwise it calls `self.sdk.reveal_secret(node_id, secret)`;
on `ContractError` it logs and re-raises.  In no branch does the method
modify `current_secret` or `current_commitment`. -/
def revealSecret (raising : Bool) (nodeId : Nat)
    (st : SecretSt) : SecretSt × List Call × Bool :=
  match st.current_secret with
  | none => (st, ([], false))
  | some s => (st, ([Call.revealSecret nodeId s], raising))

/-- Node registration state: the cached `self.node_id`
(loaded from `node_data.json`). -/
structure NodeSt where
  nodeId : Option Nat
deriving DecidableEq, Repr

/-- Ledger environment observed by `register_node`: the current stake
balance and the node id carried by the `NodeRegistered` event of the
registration receipt. -/
structure RegEnv where
  currentStake : Nat
  assignedNodeId : Nat
deriving DecidableEq, Repr

/-- Embedding of `LuminoNode.register_node` (node_client.py:106-141),
error-free run. Returns the new state, the ledger mutations attempted and
the number of writes of `node_data.json` (`self._save_node_data()`).
If `self.node_id` is already set the method returns immediately. -/
def registerNode (env : RegEnv) (computeRating : Nat)
    (st : NodeSt) : NodeSt × List Call × Nat :=
  match st.nodeId with
  | some _ => (st, ([], 0))
  | none =>
      let requiredStake := computeRating * 10 ^ 18
      let stakeCalls :=
        if env.currentStake < requiredStake then
          [Call.approveTokenSpending "node_escrow" (requiredStake - env.currentStake),
           Call.depositStake (requiredStake - env.currentStake)]
        else []
      ({ nodeId := some env.assignedNodeId },
       (stakeCalls ++ [Call.registerNode computeRating], 1))

/-- A sequence of `register_node` invocations (each with its observed
ledger environment and compute rating), returning the final state and the
total number of `node_data.json` writes. -/
def runRegistrations (st : NodeSt) : List (RegEnv × Nat) → NodeSt × Nat
  | [] => (st, 0)
  | (env, r) :: rest =>
      let step := registerNode env r st
      let tail := runRegistrations step.1 rest
      (tail.1, step.2.2 + tail.2)

/-- Result of `json.loads` on a job's `args` string: either a JSON
decode error, or a dict of which only the `use_lora` entry matters to the
embedded behaviour (`none` = key absent). -/
inductive JsonArgs where
  | invalid (raw : String)
  | valid (useLora : Option Bool)
deriving DecidableEq, Repr

/-- A job record as returned by `self.sdk.get_jobs_by_node` and read in
`process_assigned_jobs` (node_client.py:202-207). -/
structure Job where
  id : Nat
  args : JsonArgs
  base_model_name : String
  status : Nat
  submitter : String
deriving DecidableEq, Repr

/-- What one iteration of the token-count poll loop observes: whether
`process.poll()` still returns None, and the state of the
`.token-count` file. -/
inductive FileState where
  | absent
  | malformed
  | valid (n : Nat)
deriving DecidableEq, Repr

/-- One poll-loop observation. -/
structure Obs where
  alive : Bool
  file : FileState
deriving DecidableEq, Repr

/-- Behaviour of the spawned subprocess as seen by `_execute_job`:
the successive poll observations and whether the `.finished` marker file
exists after the process exits. -/
structure ExecEnv where
  obs : List Obs
  finished : Bool
deriving DecidableEq, Repr

/-- Embedding of the token-count monitoring loop of `_execute_job`
(node_client.py:304-316).  While the process is alive: if the
`.token-count` file exists, one read is attempted (a successful integer
read reports the count, a ValueError or IOError is logged) and then the
loop unconditionally breaks; otherwise it sleeps and polls again. -/
def monitor (jobId : Nat) : List Obs → List Call
  | [] => []
  | o :: rest =>
      if o.alive then
        match o.file with
        | FileState.absent => monitor jobId rest
        | FileState.malformed => []
        | FileState.valid n => [Call.setTokenCount jobId n]
      else []

/-- Embedding of the GPU-count selection of `_execute_job`
(node_client.py:255-262).  `args_dict["use_lora"]` is a direct key
access: `keyError` models the KeyError raised when the key is absent
(Python's `and` short-circuits, so models other than the 8b and 70b ones
never perform the lookup). -/
inductive GpuResult where
  | ok (n : Nat)
  | keyError
deriving DecidableEq, Repr

def numGpus (baseModelName : String) (useLora : Option Bool) : GpuResult :=
  if baseModelName = "llm_llama3_1_8b" then
    match useLora with
    | none => GpuResult.keyError
    | some b => if !b then GpuResult.ok 4 else GpuResult.ok 1
  else if baseModelName = "llm_llama3_1_70b" then
    match useLora with
    | none => GpuResult.keyError
    | some b => if !b then GpuResult.ok 8 else GpuResult.ok 4
  else GpuResult.ok 1

/-- Embedding of `LuminoNode._execute_job` (node_client.py:243-333),
returning the facade calls attempted and the success Boolean.
JSON decode errors return False directly; every other exception
(including the KeyError from the `use_lora` lookup) is caught by the
surrounding `except Exception` and turned into False.  Otherwise the
process is spawned, the token-count loop runs, the method waits for exit
and classifies success by the existence of the `.finished` marker. -/
def executeJob (j : Job) (env : ExecEnv) : List Call × Bool :=
  match j.args with
  | JsonArgs.invalid _ => ([], false)
  | JsonArgs.valid useLora =>
      match numGpus j.base_model_name useLora with
      | GpuResult.keyError => ([], false)
      | GpuResult.ok _ => (monitor j.id env.obs, env.finished)

/-- The per-job `except Exception` handler of `process_assigned_jobs`
(node_client.py:235-238): it reports `fail_job(job_id, "Processing
error: ...")`; if that report itself raises, the exception escapes the
per-job handler (the returned Bool is the escaped-exception flag). -/
def runJobCatch (raises : Call → Option String) (j : Job)
    (done : List Call) (msg : String) : List Call × Bool :=
  let fc := Call.failJob j.id ("Processing error: " ++ msg)
  (done ++ [fc], (raises fc).isSome)

/-- The tail of the per-job processing (node_client.py:228-234): on
success, `complete_job` then `process_job_payment`; on failure,
`fail_job(job_id, "Job execution failed")`.  A raising call transfers to
the per-job except handler. -/
def runJobFinish (raises : Call → Option String) (j : Job)
    (done : List Call) (success : Bool) : List Call × Bool :=
  if success then
    match raises (Call.completeJob j.id) with
    | some msg => runJobCatch raises j (done ++ [Call.completeJob j.id]) msg
    | none =>
        match raises (Call.processJobPayment j.id) with
        | some msg =>
            runJobCatch raises j
              (done ++ [Call.completeJob j.id, Call.processJobPayment j.id]) msg
        | none =>
            (done ++ [Call.completeJob j.id, Call.processJobPayment j.id], false)
  else
    match raises (Call.failJob j.id "Job execution failed") with
    | some msg =>
        runJobCatch raises j (done ++ [Call.failJob j.id "Job execution failed"]) msg
    | none => (done ++ [Call.failJob j.id "Job execution failed"], false)

/-- Embedding of the body of the `for job in jobs` loop of
`process_assigned_jobs` (node_client.py:203-238) for one job.
`raises c = some msg` means the facade call `c` raises an exception with
message `msg`.  Only jobs with status 1 (ASSIGNED) trigger any call:
`confirm_job`, then execution (the real `_execute_job` when a pipeline
directory is configured, otherwise the simulated sleep plus
`set_token_count_for_job(job_id, 600000)` with success True), then the
completion or failure calls.  Returns the calls attempted and whether an
exception escaped the per-job handler. -/
def runJob (raises : Call → Option String) (hasPipeline : Bool)
    (execEnv : Nat → ExecEnv) (j : Job) : List Call × Bool :=
  if j.status = 1 then
    match raises (Call.confirmJob j.id) with
    | some msg => runJobCatch raises j [Call.confirmJob j.id] msg
    | none =>
        if hasPipeline then
          let r := executeJob j (execEnv j.id)
          runJobFinish raises j (Call.confirmJob j.id :: r.1) r.2
        else
          match raises (Call.setTokenCount j.id 600000) with
          | some msg =>
              runJobCatch raises j
                [Call.confirmJob j.id, Call.setTokenCount j.id 600000] msg
          | none =>
              runJobFinish raises j
                [Call.confirmJob j.id, Call.setTokenCount j.id 600000] true
  else ([], false)

/-- Embedding of `LuminoNode.process_assigned_jobs` over the job list
(node_client.py:199-241): jobs are handled in order; an exception that
escapes a per-job handler aborts the iteration (it propagates out of the
method, re-raised by the outer ContractError handler or directly). -/
def processAssignedJobs (raises : Call → Option String) (hasPipeline : Bool)
    (execEnv : Nat → ExecEnv) : List Job → List Call × Bool
  | [] => ([], false)
  | j :: rest =>
      let r := runJob raises hasPipeline execEnv j
      if r.2 then (r.1, true)
      else
        let r2 := processAssignedJobs raises hasPipeline execEnv rest
        (r.1 ++ r2.1, r2.2)

/-- The environment in which no facade call ever raises. -/
def raisesNone : Call → Option String := fun _ => none

/-- True when `needle` occurs as a substring of `hay`
(used to state the C7 claim about failure-reason contents). -/
def containsSub (hay needle : String) : Bool :=
  (List.range (hay.data.length + 1)).any fun i =>
    List.isPrefixOf needle.data (hay.data.drop i)

/-- The execution step of the per-job processing: the real
`_execute_job` when a pipeline directory is configured
(node_client.py:214-220), otherwise the simulated path
(node_client.py:221-226) that sleeps, reports a token count of 600000
and succeeds. -/
def execResult (hasPipeline : Bool) (execEnv : Nat → ExecEnv) (j : Job) :
    List Call × Bool :=
  if hasPipeline then executeJob j (execEnv j.id)
  else ([Call.setTokenCount j.id 600000], true)

/-- Python `int(c)` for one ASCII digit character, as applied to
`self.test_mode[5]` (node_client.py:445). -/
def charDigit (c : Char) : Nat := c.toNat - 48

/-- State threaded through the main loop of `LuminoNode.run`
(node_client.py:344-471): the last observed phase name, the
`can_begin` one-shot and the `epochs_processed` counter. -/
structure LoopSt where
  lastPhase : Option Nat
  canBegin : Bool
  epochsProcessed : Nat
deriving DecidableEq, Repr

/-- The epoch-count digit the exit check reads:
`int(self.test_mode[5])` (node_client.py:445). -/
def testModeCount (tm : List Char) : Nat := charDigit (tm.getD 5 '0')

/-- The test-mode exit condition of the main loop (node_client.py:445):
`self.test_mode and int(self.test_mode[5]) != 0 and epochs_processed >=
int(self.test_mode[5])`. -/
def testExit (testMode : Option (List Char)) (epochs : Nat) : Bool :=
  match testMode with
  | none => false
  | some tm => decide (testModeCount tm ≠ 0) && decide (testModeCount tm ≤ epochs)

/-- Embedding of the main loop of `LuminoNode.run`
(node_client.py:370-458) at dispatch granularity, for an error-free run.
The input list is the successive phase numbers returned by
`get_epoch_state()`, one per loop iteration.  Each iteration: compute
`state_changed` against `last_phase` and record the new phase; when
`can_begin` and the state changed, dispatch the handler for the phase
(node_client.py:407-433; the returned trace records the phases whose
handlers were invoked, and the DISPUTE branch increments
`epochs_processed`); then the test-mode exit check (node_client.py:445)
breaks out of the loop; then `can_begin` is set when the phase is
DISPUTE (node_client.py:453). -/
def runLoop (testMode : Option (List Char)) :
    List Nat → LoopSt → LoopSt × List Nat
  | [], st => (st, [])
  | phase :: rest, st =>
      let changed : Bool := decide (st.lastPhase ≠ some phase)
      let st1 : LoopSt := { st with lastPhase := some phase }
      let acted : LoopSt × List Nat :=
        if st.canBegin && changed then
          (if phase = 5 then
            { st1 with epochsProcessed := st1.epochsProcessed + 1 }
           else st1, [phase])
        else (st1, [])
      if testExit testMode acted.1.epochsProcessed then (acted.1, acted.2)
      else
        let st3 := if phase = 5 then { acted.1 with canBegin := true } else acted.1
        let tail := runLoop testMode rest st3
        (tail.1, acted.2 ++ tail.2)

/-- The loop state at entry of `run` (node_client.py:351,367-368). -/
def initLoopSt : LoopSt := ⟨none, false, 0⟩

/-- Sample assigned job with well-formed args. -/
def jobOne : Job := ⟨1, JsonArgs.valid (some true), "llm_llama3_1_8b", 1, "alice"⟩

/-- Second sample assigned job. -/
def jobTwo : Job := ⟨2, JsonArgs.valid (some true), "llm_llama3_1_8b", 1, "bob"⟩

/-- Sample assigned job whose `args` string is not valid JSON. -/
def jobBadArgs : Job := ⟨3, JsonArgs.invalid "not-json", "llm_llama3_1_8b", 1, "alice"⟩

/-- Sample assigned job whose args JSON lacks the `use_lora` key. -/
def jobMissingLora : Job := ⟨4, JsonArgs.valid none, "llm_llama3_1_8b", 1, "alice"⟩

/-- Subprocess environment: exits immediately with the finished marker
present and no token-count file observed. -/
def execEnvTrivial : Nat → ExecEnv := fun _ => ⟨[], true⟩

/-- Environment in which the facade calls touching job 1 (its
confirmation and any failure report for it) raise, all others succeed. -/
def raisesOnJobOne : Call → Option String := fun c =>
  match c with
  | Call.confirmJob 1 => some "rpc down"
  | Call.failJob 1 _ => some "rpc down"
  | _ => none

theorem runRegistrations_cached (i : Nat) (st : NodeSt) (h : st.nodeId = some i) :
    ∀ l : List (RegEnv × Nat), runRegistrations st l = (st, 0) := by
  intro l
  induction l with
  | nil => rfl
  | cons hd tl ih =>
      obtain ⟨env, r⟩ := hd
      simp only [runRegistrations, registerNode, h, ih]

/-- C9: register_node is idempotent with respect to a cached node
identity: when `node_id` is already set, a call performs no ledger
mutation and no `node_data.json` write and leaves the state unchanged;
moreover, from any state, any sequence of `register_node` invocations
writes `node_data.json` at most once, and once `node_id` is set it never
changes. -/
theorem register_node_cached_idempotent (env : RegEnv) (r : Nat) (i : Nat)
    (st : NodeSt) (h : st.nodeId = some i) :
    registerNode env r st = (st, ([], 0)) ∧
    (∀ l : List (RegEnv × Nat), runRegistrations st l = (st, 0)) ∧
    (∀ l : List (RegEnv × Nat), ∀ st₀ : NodeSt, (runRegistrations st₀ l).2 ≤ 1) := by
  refine ⟨?_, runRegistrations_cached i st h, ?_⟩
  · simp only [registerNode, h]
  · intro l
    induction l with
    | nil => intro st₀; simp [runRegistrations]
    | cons hd tl ih =>
        intro st₀
        obtain ⟨env', r'⟩ := hd
        match hst : st₀.nodeId with
        | some j =>
            have hstep : registerNode env' r' st₀ = (st₀, ([], 0)) := by
              simp only [registerNode, hst]
            simp only [runRegistrations, hstep]
            simpa using ih st₀
        | none =>
            have hstep : (registerNode env' r' st₀).1.nodeId = some env'.assignedNodeId := by
              simp only [registerNode, hst]
            have hw : (registerNode env' r' st₀).2.2 = 1 := by
              simp only [registerNode, hst]
            have hrest : runRegistrations (registerNode env' r' st₀).1 tl
                = ((registerNode env' r' st₀).1, 0) :=
              runRegistrations_cached env'.assignedNodeId _ hstep tl
            simp only [runRegistrations, hrest, hw]
            omega

/-- Witness for C9 at a concrete cached state. -/
theorem register_node_cached_idempotent_witness :
    (({ nodeId := some 7 } : NodeSt).nodeId = some 7) ∧
    (registerNode ⟨0, 9⟩ 10 { nodeId := some 7 } = ({ nodeId := some 7 }, ([], 0)) ∧
     (∀ l : List (RegEnv × Nat), runRegistrations { nodeId := some 7 } l = ({ nodeId := some 7 }, 0)) ∧
     (∀ l : List (RegEnv × Nat), ∀ st₀ : NodeSt, (runRegistrations st₀ l).2 ≤ 1)) :=
  ⟨rfl, register_node_cached_idempotent ⟨0, 9⟩ 10 7 { nodeId := some 7 } rfl⟩

/-- C10: submit_commitment stores the freshly drawn secret and its
commitment before issuing the RPC, so even when the facade call raises a
contract error the state holds the new pair (nothing is rolled back), and
a subsequent reveal attempts to reveal exactly that new secret. -/
theorem commitment_not_rolled_back (fresh nodeId : Nat) (st : SecretSt) :
    (submitCommitment true fresh nodeId st).1.current_secret = some fresh ∧
    (submitCommitment true fresh nodeId st).1.current_commitment
      = some (Hash32.keccak fresh) ∧
    (submitCommitment true fresh nodeId st).2.1
      = [Call.submitCommitment nodeId (Hash32.keccak fresh)] ∧
    (submitCommitment true fresh nodeId st).2.2 = true ∧
    (revealSecret false nodeId (submitCommitment true fresh nodeId st).1).2.1
      = [Call.revealSecret nodeId fresh] := by
  refine ⟨rfl, rfl, rfl, rfl, ?_⟩
  simp [submitCommitment, revealSecret]

/-- Counterexample to C3: after a successful reveal (`raising = false`)
of a present secret, `current_secret` is NOT cleared; the reveal RPC was
made yet the state still holds the secret. -/
theorem reveal_does_not_clear_counterexample :
    (revealSecret false 1 ⟨some 5, some (Hash32.keccak 5)⟩).2.1
      = [Call.revealSecret 1 5] ∧
    (revealSecret false 1 ⟨some 5, some (Hash32.keccak 5)⟩).2.2 = false ∧
    (revealSecret false 1 ⟨some 5, some (Hash32.keccak 5)⟩).1.current_secret
      = some 5 ∧
    some 5 ≠ (none : Option Nat) := by
  refine ⟨rfl, rfl, rfl, by simp⟩

/-- C3 (amended): when a secret is present the REVEAL action issues the
reveal RPC with that secret, but it leaves both the secret and the
commitment in place whether or not the call succeeds; the stored pair is
only replaced by the next submit_commitment. -/
theorem reveal_keeps_secret (raising : Bool) (nodeId s : Nat) (st : SecretSt)
    (h : st.current_secret = some s) :
    revealSecret raising nodeId st
      = (st, ([Call.revealSecret nodeId s], raising)) ∧
    (submitCommitment false 9 nodeId st).1.current_secret = some 9 := by
  constructor
  · simp only [revealSecret, h]
  · rfl

/-- Witness for the amended C3 at a concrete state. -/
theorem reveal_keeps_secret_witness :
    ((⟨some 5, some (Hash32.keccak 5)⟩ : SecretSt).current_secret = some 5) ∧
    (revealSecret false 2 ⟨some 5, some (Hash32.keccak 5)⟩
      = (⟨some 5, some (Hash32.keccak 5)⟩, ([Call.revealSecret 2 5], false)) ∧
     (submitCommitment false 9 2 (⟨some 5, some (Hash32.keccak 5)⟩ : SecretSt)).1.current_secret
       = some 9) :=
  ⟨rfl, reveal_keeps_secret false 2 5 ⟨some 5, some (Hash32.keccak 5)⟩ rfl⟩

theorem runJobFinish_raisesNone (j : Job) (done : List Call) (success : Bool) :
    runJobFinish raisesNone j done success
      = (done ++ (if success
            then [Call.completeJob j.id, Call.processJobPayment j.id]
            else [Call.failJob j.id "Job execution failed"]), false) := by
  cases success <;> simp [runJobFinish, raisesNone]

theorem runJob_raisesNone_assigned (hp : Bool) (ee : Nat → ExecEnv) (j : Job)
    (h : j.status = 1) :
    runJob raisesNone hp ee j
      = (Call.confirmJob j.id :: (execResult hp ee j).1
          ++ (if (execResult hp ee j).2
              then [Call.completeJob j.id, Call.processJobPayment j.id]
              else [Call.failJob j.id "Job execution failed"]), false) := by
  cases hp <;>
    simp [runJob, h, raisesNone, execResult, runJobFinish_raisesNone]

theorem runJobCatch_snd_noFailRaise (raises : Call → Option String) (j : Job)
    (done : List Call) (msg : String)
    (hfail : ∀ i r, raises (Call.failJob i r) = none) :
    (runJobCatch raises j done msg).2 = false := by
  simp [runJobCatch, hfail]

theorem runJobFinish_snd_noFailRaise (raises : Call → Option String) (j : Job)
    (done : List Call) (success : Bool)
    (hfail : ∀ i r, raises (Call.failJob i r) = none) :
    (runJobFinish raises j done success).2 = false := by
  cases success with
  | false => simp [runJobFinish, hfail, runJobCatch_snd_noFailRaise]
  | true =>
      simp only [runJobFinish, if_true]
      cases hc : raises (Call.completeJob j.id) with
      | some msg => simp [runJobCatch_snd_noFailRaise raises j _ _ hfail]
      | none =>
          cases hpp : raises (Call.processJobPayment j.id) with
          | some msg => simp [runJobCatch_snd_noFailRaise raises j _ _ hfail]
          | none => rfl

theorem runJob_snd_noFailRaise (raises : Call → Option String) (hp : Bool)
    (ee : Nat → ExecEnv) (j : Job)
    (hfail : ∀ i r, raises (Call.failJob i r) = none) :
    (runJob raises hp ee j).2 = false := by
  by_cases h : j.status = 1
  · simp only [runJob, h, if_true]
    cases hcf : raises (Call.confirmJob j.id) with
    | some msg => simp [runJobCatch_snd_noFailRaise raises j _ _ hfail]
    | none =>
        cases hp with
        | true => simp [runJobFinish_snd_noFailRaise raises j _ _ hfail]
        | false =>
            simp only [Bool.false_eq_true, if_false]
            cases hst : raises (Call.setTokenCount j.id 600000) with
            | some msg => simp [runJobCatch_snd_noFailRaise raises j _ _ hfail]
            | none => simp [runJobFinish_snd_noFailRaise raises j _ _ hfail]
  · simp [runJob, h]

theorem processAssignedJobs_noFailRaise (raises : Call → Option String)
    (hp : Bool) (ee : Nat → ExecEnv)
    (hfail : ∀ i r, raises (Call.failJob i r) = none) :
    ∀ jobs : List Job,
      processAssignedJobs raises hp ee jobs
        = ((jobs.map fun j => (runJob raises hp ee j).1).flatten, false) := by
  intro jobs
  induction jobs with
  | nil => rfl
  | cons j rest ih =>
      simp [processAssignedJobs, runJob_snd_noFailRaise raises hp ee j hfail, ih]

/-- C4: in an error-free run, every job observed with status ASSIGNED
(1) during a CONFIRM-phase handler run contributes to the call trace a
contiguous block consisting of `confirm_job`, then the execution step's
calls, then either both `complete_job` and `process_job_payment` (on
success) or `fail_job` (on failure) and nothing else; jobs with any
other status trigger no mutating ledger call. -/
theorem assigned_job_call_sequence (hp : Bool) (ee : Nat → ExecEnv)
    (jobs : List Job) (j : Job) (hmem : j ∈ jobs) :
    (j.status = 1 →
      ∃ pre post,
        (processAssignedJobs raisesNone hp ee jobs).1
          = pre ++ (Call.confirmJob j.id :: (execResult hp ee j).1
              ++ (if (execResult hp ee j).2
                  then [Call.completeJob j.id, Call.processJobPayment j.id]
                  else [Call.failJob j.id "Job execution failed"])) ++ post) ∧
    (j.status ≠ 1 → runJob raisesNone hp ee j = ([], false)) := by
  constructor
  · intro hstat
    obtain ⟨l1, l2, hsplit⟩ := List.append_of_mem hmem
    subst hsplit
    refine ⟨(l1.map fun x => (runJob raisesNone hp ee x).1).flatten,
            (l2.map fun x => (runJob raisesNone hp ee x).1).flatten, ?_⟩
    rw [processAssignedJobs_noFailRaise raisesNone hp ee (fun _ _ => rfl)]
    simp [List.map_append, List.flatten_append, runJob_raisesNone_assigned hp ee j hstat]
  · intro hstat
    simp [runJob, hstat]

/-- Witness for C4 at a concrete one-element job list. -/
theorem assigned_job_call_sequence_witness :
    jobOne ∈ [jobOne] ∧
    ((jobOne.status = 1 →
      ∃ pre post,
        (processAssignedJobs raisesNone false execEnvTrivial [jobOne]).1
          = pre ++ (Call.confirmJob jobOne.id
              :: (execResult false execEnvTrivial jobOne).1
              ++ (if (execResult false execEnvTrivial jobOne).2
                  then [Call.completeJob jobOne.id, Call.processJobPayment jobOne.id]
                  else [Call.failJob jobOne.id "Job execution failed"])) ++ post) ∧
     (jobOne.status ≠ 1 → runJob raisesNone false execEnvTrivial jobOne = ([], false))) :=
  ⟨List.mem_singleton.mpr rfl,
   assigned_job_call_sequence false execEnvTrivial [jobOne] jobOne
     (List.mem_singleton.mpr rfl)⟩

theorem monitor_append_absent (jobId : Nat) (pre l : List Obs)
    (hpre : ∀ p ∈ pre, p.alive = true ∧ p.file = FileState.absent) :
    monitor jobId (pre ++ l) = monitor jobId l := by
  induction pre with
  | nil => rfl
  | cons o rest ih =>
      have ho := hpre o (by simp)
      have hrest : ∀ p ∈ rest, p.alive = true ∧ p.file = FileState.absent :=
        fun p hp => hpre p (by simp [hp])
      simp only [List.cons_append, monitor, ho.1, ho.2, if_true]
      exact ih hrest

/-- Counterexample to C5: with the `.token-count` file present but
malformed on the first poll and well-formed on the next poll while the
process is still alive, the monitoring loop makes no
`set_token_count_for_job` call at all: the `break` runs on the first
poll where the file exists even when the read failed, so the read is
never retried. -/
theorem token_poll_no_retry_counterexample :
    monitor 1 [⟨true, FileState.malformed⟩, ⟨true, FileState.valid 1234567⟩]
      = [] ∧
    Call.setTokenCount 1 1234567
      ∉ monitor 1 [⟨true, FileState.malformed⟩, ⟨true, FileState.valid 1234567⟩] := by
  constructor
  · rfl
  · simp [monitor]

/-- C5 (amended): polling skips ticks where the process is alive and the
file is absent; on the first decisive tick, a dead process ends polling
with no call, a well-formed file yields exactly one
`set_token_count_for_job` call and polling stops, and a malformed file is
logged and polling stops anyway, with no retry and no call. -/
theorem token_poll_single_attempt (jobId : Nat) (pre : List Obs) (o : Obs)
    (rest : List Obs)
    (hpre : ∀ p ∈ pre, p.alive = true ∧ p.file = FileState.absent) :
    (o.alive = false → monitor jobId (pre ++ o :: rest) = []) ∧
    (∀ n, o.alive = true → o.file = FileState.valid n →
        monitor jobId (pre ++ o :: rest) = [Call.setTokenCount jobId n]) ∧
    (o.alive = true → o.file = FileState.malformed →
        monitor jobId (pre ++ o :: rest) = []) := by
  rw [monitor_append_absent jobId pre _ hpre]
  refine ⟨fun h => by simp [monitor, h], fun n h1 h2 => by simp [monitor, h1, h2],
          fun h1 h2 => by simp [monitor, h1, h2]⟩

/-- Witness for the amended C5 at a concrete observation trace. -/
theorem token_poll_single_attempt_witness :
    (∀ p ∈ [(⟨true, FileState.absent⟩ : Obs)],
        p.alive = true ∧ p.file = FileState.absent) ∧
    (((⟨true, FileState.valid 42⟩ : Obs).alive = false →
        monitor 7 ([⟨true, FileState.absent⟩] ++ ⟨true, FileState.valid 42⟩ :: []) = []) ∧
     (∀ n, (⟨true, FileState.valid 42⟩ : Obs).alive = true →
        (⟨true, FileState.valid 42⟩ : Obs).file = FileState.valid n →
        monitor 7 ([⟨true, FileState.absent⟩] ++ ⟨true, FileState.valid 42⟩ :: [])
          = [Call.setTokenCount 7 n]) ∧
     ((⟨true, FileState.valid 42⟩ : Obs).alive = true →
        (⟨true, FileState.valid 42⟩ : Obs).file = FileState.malformed →
        monitor 7 ([⟨true, FileState.absent⟩] ++ ⟨true, FileState.valid 42⟩ :: []) = [])) :=
  ⟨by simp,
   token_poll_single_attempt 7 [⟨true, FileState.absent⟩] ⟨true, FileState.valid 42⟩ []
     (by simp)⟩

/-- Counterexample to C6: for `base_model_name = "llm_llama3_1_8b"` with
`use_lora` absent from the args JSON, the GPU selection does not default
to `use_lora = true` (which would give 1 GPU): the direct
`args_dict["use_lora"]` access raises KeyError, the surrounding handler
converts it to execution failure, and the job is failed even though the
subprocess environment would have succeeded. -/
theorem gpu_default_counterexample :
    numGpus "llm_llama3_1_8b" none = GpuResult.keyError ∧
    numGpus "llm_llama3_1_8b" none ≠ GpuResult.ok 1 ∧
    executeJob jobMissingLora ⟨[⟨true, FileState.valid 5⟩], true⟩ = ([], false) ∧
    (runJob raisesNone true (fun _ => ⟨[⟨true, FileState.valid 5⟩], true⟩)
        jobMissingLora).1
      = [Call.confirmJob 4, Call.failJob 4 "Job execution failed"] := by
  refine ⟨rfl, by simp [numGpus], rfl, ?_⟩
  rw [runJob_raisesNone_assigned true _ jobMissingLora rfl]
  rfl

/-- C6 (amended): the GPU count follows the claimed table whenever
`use_lora` is present in the args JSON, and the two llama-3.2 models get
1 GPU even when it is absent; but for `llm_llama3_1_8b` and
`llm_llama3_1_70b` with `use_lora` absent, the selection raises KeyError
and execution of the job fails (there is no default to true). -/
theorem num_gpus_selection (b : Bool) :
    numGpus "llm_llama3_2_1b" (some b) = GpuResult.ok 1 ∧
    numGpus "llm_llama3_2_3b" (some b) = GpuResult.ok 1 ∧
    numGpus "llm_llama3_1_8b" (some true) = GpuResult.ok 1 ∧
    numGpus "llm_llama3_1_8b" (some false) = GpuResult.ok 4 ∧
    numGpus "llm_llama3_1_70b" (some true) = GpuResult.ok 4 ∧
    numGpus "llm_llama3_1_70b" (some false) = GpuResult.ok 8 ∧
    numGpus "llm_llama3_2_1b" none = GpuResult.ok 1 ∧
    numGpus "llm_llama3_2_3b" none = GpuResult.ok 1 ∧
    numGpus "llm_llama3_1_8b" none = GpuResult.keyError ∧
    numGpus "llm_llama3_1_70b" none = GpuResult.keyError ∧
    (∀ env : ExecEnv, ∀ i stat : Nat, ∀ sub : String,
        executeJob ⟨i, JsonArgs.valid none, "llm_llama3_1_8b", stat, sub⟩ env
          = ([], false)) ∧
    (∀ env : ExecEnv, ∀ i stat : Nat, ∀ sub : String,
        executeJob ⟨i, JsonArgs.valid none, "llm_llama3_1_70b", stat, sub⟩ env
          = ([], false)) := by
  cases b <;>
    exact ⟨rfl, rfl, rfl, rfl, rfl, rfl, rfl, rfl, rfl, rfl,
           fun _ _ _ _ => rfl, fun _ _ _ _ => rfl⟩

/-- Counterexample to C7: for an assigned job whose args string is not
valid JSON, the node does call `fail_job`, but with reason
"Job execution failed"; "Invalid JSON" appears only in the log, not in
the failure reason sent to the ledger. -/
theorem invalid_json_reason_counterexample :
    (processAssignedJobs raisesNone true execEnvTrivial [jobBadArgs]).1
      = [Call.confirmJob 3, Call.failJob 3 "Job execution failed"] ∧
    containsSub "Job execution failed" "Invalid JSON" = false := by
  constructor
  · rfl
  · decide

/-- C7 (amended): for every assigned job with malformed args JSON, the
node calls `confirm_job` and then `fail_job(job_id, "Job execution
failed")` (the "Invalid JSON" text goes only to the log), does not call
`complete_job` or `process_job_payment` for that job, and proceeds with
the remaining jobs in the list. -/
theorem invalid_json_fails_generic (ee : Nat → ExecEnv) (j : Job) (raw : String)
    (pre post : List Job) (hstat : j.status = 1)
    (hargs : j.args = JsonArgs.invalid raw) :
    runJob raisesNone true ee j
      = ([Call.confirmJob j.id, Call.failJob j.id "Job execution failed"], false) ∧
    (processAssignedJobs raisesNone true ee (pre ++ j :: post)).1
      = ((pre.map fun x => (runJob raisesNone true ee x).1).flatten
          ++ [Call.confirmJob j.id, Call.failJob j.id "Job execution failed"]
          ++ (post.map fun x => (runJob raisesNone true ee x).1).flatten) ∧
    Call.completeJob j.id
      ∉ [Call.confirmJob j.id, Call.failJob j.id "Job execution failed"] ∧
    Call.processJobPayment j.id
      ∉ [Call.confirmJob j.id, Call.failJob j.id "Job execution failed"] := by
  have hrun : runJob raisesNone true ee j
      = ([Call.confirmJob j.id, Call.failJob j.id "Job execution failed"], false) := by
    rw [runJob_raisesNone_assigned true ee j hstat]
    simp [execResult, executeJob, hargs]
  refine ⟨hrun, ?_, by simp, by simp⟩
  rw [processAssignedJobs_noFailRaise raisesNone true ee (fun _ _ => rfl)]
  simp [List.map_append, List.flatten_append, hrun]

/-- Witness for the amended C7 at a concrete job list. -/
theorem invalid_json_fails_generic_witness :
    (jobBadArgs.status = 1 ∧ jobBadArgs.args = JsonArgs.invalid "not-json") ∧
    (runJob raisesNone true execEnvTrivial jobBadArgs
      = ([Call.confirmJob jobBadArgs.id,
          Call.failJob jobBadArgs.id "Job execution failed"], false) ∧
     (processAssignedJobs raisesNone true execEnvTrivial ([] ++ jobBadArgs :: [jobOne])).1
      = (([] : List Job).map fun x => (runJob raisesNone true execEnvTrivial x).1).flatten
          ++ [Call.confirmJob jobBadArgs.id,
              Call.failJob jobBadArgs.id "Job execution failed"]
          ++ ([jobOne].map fun x => (runJob raisesNone true execEnvTrivial x).1).flatten ∧
     Call.completeJob jobBadArgs.id
       ∉ [Call.confirmJob jobBadArgs.id,
          Call.failJob jobBadArgs.id "Job execution failed"] ∧
     Call.processJobPayment jobBadArgs.id
       ∉ [Call.confirmJob jobBadArgs.id,
          Call.failJob jobBadArgs.id "Job execution failed"]) :=
  ⟨⟨rfl, rfl⟩,
   invalid_json_fails_generic execEnvTrivial jobBadArgs "not-json" [] [jobOne] rfl rfl⟩

/-- Counterexample to C8: when processing job 1 raises at `confirm_job`
and the failure report `fail_job(1, ...)` issued by the per-job handler
itself raises, the error escapes the per-job handler and aborts the
iteration: job 2, though ASSIGNED and later in the list, is never
touched (not even confirmed). -/
theorem per_job_error_escape_counterexample :
    processAssignedJobs raisesOnJobOne false execEnvTrivial [jobOne, jobTwo]
      = ([Call.confirmJob 1, Call.failJob 1 "Processing error: rpc down"], true) ∧
    Call.confirmJob 2
      ∉ (processAssignedJobs raisesOnJobOne false execEnvTrivial [jobOne, jobTwo]).1 := by
  constructor
  · rfl
  · decide

/-- C8 (amended): as long as `fail_job` itself never raises, an error
raised while processing any single job (during confirm, the simulated
token-count report, complete, or payment) never escapes that job: the
per-job handler catches it, reports `fail_job`, and the iteration
continues through every job in the list, each contributing its own
calls; only an error raised by the failure report itself escapes. -/
theorem per_job_errors_contained (raises : Call → Option String) (hp : Bool)
    (ee : Nat → ExecEnv) (jobs : List Job)
    (hfail : ∀ i r, raises (Call.failJob i r) = none) :
    processAssignedJobs raises hp ee jobs
      = ((jobs.map fun j => (runJob raises hp ee j).1).flatten, false) :=
  processAssignedJobs_noFailRaise raises hp ee hfail jobs

/-- Witness for the amended C8 at a concrete environment and job list. -/
theorem per_job_errors_contained_witness :
    (∀ i r, raisesNone (Call.failJob i r) = none) ∧
    processAssignedJobs raisesNone false execEnvTrivial [jobOne, jobTwo]
      = (([jobOne, jobTwo].map
            fun j => (runJob raisesNone false execEnvTrivial j).1).flatten, false) :=
  ⟨fun _ _ => rfl,
   per_job_errors_contained raisesNone false execEnvTrivial [jobOne, jobTwo]
     (fun _ _ => rfl)⟩

/-- C1 is violated by the code: with test-mode string "0000000" (every
phase character '0', which the claim says disables every handler), a run
over one full epoch after the initial DISPUTE still invokes the handlers
of all six phases: `run` never consults test-mode characters 0 through 5
when dispatching (node_client.py:406-433). -/
theorem phase_gating_absent :
    (runLoop (some ['0', '0', '0', '0', '0', '0', '0'])
        [5, 0, 1, 2, 3, 4, 5] initLoopSt).2
      = [0, 1, 2, 3, 4, 5] := by
  decide

/-- C2 is violated by the code: with test-mode string "1111125" (so the
claimed epoch-count character at index 6 is '5' while the character at
index 5 is '2'), the loop exits after 2 DISPUTE-phase completions, not
5: the exit check reads `int(test_mode[5])` (node_client.py:445).  The
observation schedule offers three full epochs after the initial DISPUTE,
but only the first two produce handler dispatches. -/
theorem epoch_count_read_at_index5 :
    runLoop (some ['1', '1', '1', '1', '1', '2', '5'])
        ([5] ++ [0, 1, 2, 3, 4, 5] ++ [0, 1, 2, 3, 4, 5] ++ [0, 1, 2, 3, 4, 5])
        initLoopSt
      = (⟨some 5, true, 2⟩, [0, 1, 2, 3, 4, 5, 0, 1, 2, 3, 4, 5]) := by
  decide

end NodeClient
